import Mathlib

/-
Verification of the demographic-chart script (Task_1.py).

Shallow embedding: Python values that appear in the script's data
structures are modelled by the inductive `Cell` (strings, two-level
code+display-name dicts, numbers); a pandas DataFrame is modelled by its
row count and its optional `country` and `value` columns; the module-level
`data` dict is an ordered association list from string keys to lists of
cells; machine floats are modelled by exact rationals (the script performs
only exact-representable literal arithmetic in the claims at issue);
operations that would raise a Python exception return `none`.
-/

namespace Task1

/-- A Python value appearing in a column or in the merged `data` dict:
a plain string, a World Bank country dict `{"id": code, "value": name}`
(modelled by its two fields), or a number. -/
inductive Cell where
  | cstr (s : String)
  | cdict (id : String) (value : String)
  | cnum (q : ℚ)
  deriving DecidableEq, Repr

/-- `isinstance(x, dict)` on a cell. -/
def Cell.isDictCell : Cell → Bool
  | .cdict _ _ => true
  | _ => false

/-- `x['value']` on a cell: succeeds only on a dict (a string or number
subscripted by a string key raises in Python). -/
def Cell.valueField : Cell → Option String
  | .cdict _ v => some v
  | _ => none

/-- Total read-off of a dict cell's display name (specification helper;
`""` on non-dicts, which the theorems exclude by hypothesis). -/
def Cell.dval : Cell → String
  | .cdict _ v => v
  | _ => ""

/-- A raw entry of a DataFrame `value` column, classified by how
`pd.to_numeric(..., errors='coerce')` treats it: a value that parses as a
floating-point number (carried already parsed), an unparseable string,
or a missing entry (None/NaN). -/
inductive RawVal where
  | num (q : ℚ)
  | unparseable (s : String)
  | missing
  deriving DecidableEq, Repr

/-- `pd.to_numeric(x, errors='coerce').fillna(0)` on one entry:
a parseable entry maps to its number, everything else to 0. Total. -/
def coerceValue : RawVal → ℚ
  | .num q => q
  | .unparseable _ => 0
  | .missing => 0

/-- Line 83: `pd.to_numeric(df['value'], errors='coerce').fillna(0).tolist()`. -/
def coerceColumn (vs : List RawVal) : List Cell :=
  vs.map (fun rv => Cell.cnum (coerceValue rv))

/-- A pandas DataFrame as the script uses it: its row count (`len(df)`),
its `country` column when present, and its `value` column when present. -/
structure DataFrame where
  nrows : Nat
  country : Option (List Cell)
  value : Option (List RawVal)
  deriving DecidableEq, Repr

/-- The merged `data` dict: an ordered association list (Python dicts
preserve insertion order; all values the script stores are lists). -/
def DataDict := List (String × List Cell)
  deriving DecidableEq

/-- `key in data` / `data[key]`: first (and in Python the only) binding. -/
def dictLookup (d : DataDict) (k : String) : Option (List Cell) :=
  (d.find? (fun kv => kv.1 = k)).map (fun kv => kv.2)

/-- A Python list comprehension whose body may raise: `some` of the
mapped list when every element succeeds, `none` as soon as one raises. -/
def comprehend (f : α → Option β) : List α → Option (List β)
  | [] => some []
  | a :: l => do
      let b ← f a
      let t ← comprehend f l
      return b :: t

/-- Lines 72-75: the `country` column decode. `iloc[0]` on an empty column
raises (none); if the first entry is a dict, every entry is subscripted by
`'value'` (raising on a non-dict entry); otherwise the column is returned
as-is (`tolist()`). -/
def extractCountries : List Cell → Option (List Cell)
  | [] => none
  | c :: rest =>
    if c.isDictCell then
      (comprehend Cell.valueField (c :: rest)).map (fun l => l.map Cell.cstr)
    else
      some (c :: rest)

/-- Lines 71-77: country identifiers from the first available indicator
table: decode the `country` column when it exists, else synthesize
`Country_1`, `Country_2`, ... one per row. -/
def resolveCountries (df : DataFrame) : Option (List Cell) :=
  match df.country with
  | some col => extractCountries col
  | none =>
      some ((List.range df.nrows).map
        (fun i => Cell.cstr ("Country_" ++ toString (i + 1))))

/-- Lines 81-84: for each fetched indicator whose table is non-empty,
coerce its `value` column; accessing a missing `value` column raises. -/
def processColumns : List (String × DataFrame) → Option (List (String × List Cell))
  | [] => some []
  | (name, df) :: rest =>
      if df.nrows = 0 then processColumns rest
      else do
        let vs ← df.value
        let tail ← processColumns rest
        return (name, coerceColumn vs) :: tail

/-- Lines 67-84: build the `data` dict from the fetched mapping:
countries from the first table (`list(wb_data.values())[0]`), then one
numeric column per non-empty indicator table. -/
def processWbData (wb : List (String × DataFrame)) : Option DataDict := do
  let first ← wb.head?
  let countries ← resolveCountries first.2
  let cols ← processColumns wb
  return ("countries", countries) :: cols

/-- Lines 44-59: the hard-coded sample data. -/
def create_sample_demographic_data : DataDict :=
  [ ("countries",
      [Cell.cstr "United States", Cell.cstr "China", Cell.cstr "India",
       Cell.cstr "Germany", Cell.cstr "Japan", Cell.cstr "Brazil",
       Cell.cstr "United Kingdom", Cell.cstr "France"]),
    ("male_population",
      [Cell.cnum 163, Cell.cnum 723, Cell.cnum 717, Cell.cnum 41,
       Cell.cnum 61, Cell.cnum 106, Cell.cnum 33, Cell.cnum 33]),
    ("female_population",
      [Cell.cnum 168, Cell.cnum 689, Cell.cnum 663, Cell.cnum 42,
       Cell.cnum 64, Cell.cnum 109, Cell.cnum 34, Cell.cnum 35]),
    ("age_0_14_percent",
      [Cell.cnum 18.1, Cell.cnum 17.3, Cell.cnum 26.2, Cell.cnum 13.9,
       Cell.cnum 12.5, Cell.cnum 21.1, Cell.cnum 17.9, Cell.cnum 17.9]),
    ("age_15_64_percent",
      [Cell.cnum 65.0, Cell.cnum 70.1, Cell.cnum 67.0, Cell.cnum 64.9,
       Cell.cnum 59.2, Cell.cnum 69.6, Cell.cnum 64.2, Cell.cnum 61.7]),
    ("age_65_plus_percent",
      [Cell.cnum 16.9, Cell.cnum 12.6, Cell.cnum 6.8, Cell.cnum 21.2,
       Cell.cnum 28.3, Cell.cnum 9.3, Cell.cnum 17.9, Cell.cnum 20.4]) ]

/-- Lines 66-88: `if wb_data and len(wb_data) > 2:` use the fetched data,
otherwise the sample data (an empty dict is falsy, so the guard is
equivalent to `len(wb_data) > 2`). -/
def chooseData (wb : List (String × DataFrame)) : Option DataDict :=
  if wb ≠ [] ∧ wb.length > 2 then processWbData wb
  else some create_sample_demographic_data

/-- Line 91: `num_countries = min(8, len(data['countries']))`
(raises KeyError when the key is absent). -/
def num_countries (d : DataDict) : Option Nat :=
  (dictLookup d "countries").map (fun cs => min 8 cs.length)

/-- Lines 92-94: truncate every (list-valued, i.e. every) entry of the
dict to its first `n` elements. -/
def truncateAll (d : DataDict) (n : Nat) : DataDict :=
  d.map (fun kv => (kv.1, kv.2.take n))

/-- Lines 91-94 combined: compute `num_countries` from the countries list
and truncate every field. -/
def truncateData (d : DataDict) : Option DataDict :=
  (num_countries d).map (truncateAll d)

/-- Line 96, per name: `country[:12] + '...' if len(country) > 12 else country`. -/
def shortenLabel (s : String) : String :=
  if s.length > 12 then s.take 12 ++ "..." else s

/-- Line 96, per cell: slicing a non-string cell raises. -/
def cellLabel : Cell → Option String
  | .cstr s => some (shortenLabel s)
  | _ => none

/-- Line 96: `countries_short = [... for country in data['countries']]`. -/
def buildLabels (cs : List Cell) : Option (List String) :=
  comprehend cellLabel cs

/-- The five chart data series of lines 99-109. -/
structure Fields where
  male_data : List Cell
  female_data : List Cell
  age_0_14 : List Cell
  age_15_64 : List Cell
  age_65_plus : List Cell
  deriving DecidableEq, Repr

/-- Lines 99-109: field resolution on the (already truncated) dict.
Male/female: when BOTH `male_population` and `female_population` are
present they are used directly; otherwise both fields fall back to
`data.get('male_pop'/'female_pop', [100]*n)[:n]`. Each age field:
`data.get('<name>_percent', data.get('<name>', [default]*n))[:n]` with
defaults 20 / 65 / 15. -/
def resolveFields (d : DataDict) (n : Nat) : Fields :=
  let md := match dictLookup d "male_population", dictLookup d "female_population" with
    | some m, some _ => m
    | _, _ => ((dictLookup d "male_pop").getD (List.replicate n (Cell.cnum 100))).take n
  let fd := match dictLookup d "male_population", dictLookup d "female_population" with
    | some _, some f => f
    | _, _ => ((dictLookup d "female_pop").getD (List.replicate n (Cell.cnum 100))).take n
  { male_data := md
    female_data := fd
    age_0_14 :=
      ((dictLookup d "age_0_14_percent").getD
        ((dictLookup d "age_0_14").getD (List.replicate n (Cell.cnum 20)))).take n
    age_15_64 :=
      ((dictLookup d "age_15_64_percent").getD
        ((dictLookup d "age_15_64").getD (List.replicate n (Cell.cnum 65)))).take n
    age_65_plus :=
      ((dictLookup d "age_65_plus_percent").getD
        ((dictLookup d "age_65_plus").getD (List.replicate n (Cell.cnum 15)))).take n }

/-- Everything the Renderer consumes: the truncated countries list (the
underlying records), the shortened chart labels, and the five series. -/
structure ChartInput where
  countries : List Cell
  countries_short : List String
  fields : Fields
  deriving DecidableEq, Repr

/-- Lines 66-109: from the Fetcher's result to the Renderer's input. -/
def pipeline (wb : List (String × DataFrame)) : Option ChartInput :=
  (chooseData wb).bind fun d =>
  (num_countries d).bind fun n =>
  (dictLookup (truncateAll d n) "countries").bind fun cs =>
  (buildLabels cs).bind fun labels =>
  some { countries := cs, countries_short := labels,
         fields := resolveFields (truncateAll d n) n }

/-- `np.mean` over exact rationals. -/
def mean (l : List ℚ) : ℚ := l.sum / l.length

/-- Numeric reading of a cell: `np.mean` over non-numbers raises. -/
def cellNum : Cell → Option ℚ
  | .cnum q => some q
  | _ => none

/-- Lines 131-135, per series: `np.mean` of a cell list. -/
def meanCells (l : List Cell) : Option ℚ :=
  (comprehend cellNum l).map mean

/-- Lines 7-13: the five indicators, in iteration order. -/
def INDICATORS : List (String × String) :=
  [ ("male_pop", "SP.POP.TOTL.MA.IN"),
    ("female_pop", "SP.POP.TOTL.FE.IN"),
    ("age_0_14", "SP.POP.0014.TO.ZS"),
    ("age_15_64", "SP.POP.1564.TO.ZS"),
    ("age_65_plus", "SP.POP.65UP.TO.ZS") ]

/-- Outcome of one `requests.get` + `raise_for_status` + `response.json()`:
either a network/HTTP failure (a `RequestException`, carrying its message)
or a parsed JSON array whose elements the script treats as tables
(element 1, when present, is the per-country record array; its Python
truthiness is `nrows ≠ 0`). -/
inductive FetchResult where
  | reqError (msg : String)
  | response (body : List DataFrame)

/-- One iteration of the fetch loop (lines 21-40): on a request error,
log and move on; on success, keep the table built from payload element 1
when that element exists and is truthy (non-empty). -/
def fetchStep (net : String → FetchResult)
    (acc : List (String × DataFrame) × List String) (p : String × String) :
    List (String × DataFrame) × List String :=
  match net p.2 with
  | .reqError e =>
      (acc.1, acc.2 ++ ["✗ Error fetching " ++ p.1 ++ ": " ++ e])
  | .response body =>
      match body[1]? with
      | some df =>
          if df.nrows ≠ 0 then
            (acc.1 ++ [(p.1, df)], acc.2 ++ ["✓ Fetched " ++ p.1 ++ " data"])
          else acc
      | none => acc

/-- Lines 15-42: `fetch_wb_demographic_data`, with the network abstracted
as a map from indicator code to outcome. Returns the indicator→table
mapping (in insertion order) and the log lines printed. -/
def fetch_wb_demographic_data (net : String → FetchResult) :
    List (String × DataFrame) × List String :=
  INDICATORS.foldl (fetchStep net) ([], [])

/-- The per-indicator success record of the fetch loop: `some (name, df)`
exactly when the request succeeded and element 1 of the payload is a
non-empty table. -/
def succRecord (net : String → FetchResult) (p : String × String) :
    Option (String × DataFrame) :=
  match net p.2 with
  | .reqError _ => none
  | .response body =>
      match body[1]? with
      | some df => if df.nrows ≠ 0 then some (p.1, df) else none
      | none => none

/-- The log line one iteration of the fetch loop prints, if any. -/
def logLine (net : String → FetchResult) (p : String × String) : Option String :=
  match net p.2 with
  | .reqError e => some ("✗ Error fetching " ++ p.1 ++ ": " ++ e)
  | .response body =>
      match body[1]? with
      | some df =>
          if df.nrows ≠ 0 then some ("✓ Fetched " ++ p.1 ++ " data") else none
      | none => none

/-- Concrete data dict exhibiting the male/female coupling of lines
99-105: `male_population` is present but `female_population` is not. -/
def popCoupleDict : DataDict :=
  [("countries", [Cell.cstr "A"]), ("male_population", [Cell.cnum 7])]

/-- Concrete data dict whose numeric fields are shorter than
`min(8, country count)`. -/
def shortFieldsDict : DataDict :=
  [ ("countries", [Cell.cstr "A", Cell.cstr "B", Cell.cstr "C"]),
    ("male_pop", [Cell.cnum 1]),
    ("age_0_14", [Cell.cnum 2, Cell.cnum 3]) ]

/-- A network on which every request raises. -/
def netAllFail : String → FetchResult := fun _ => FetchResult.reqError "timeout"

section Lemmas

/-- On an all-dict column, subscripting every entry by `'value'` succeeds
and yields the display names. -/
lemma comprehend_valueField_all_dict (l : List Cell) (h : ∀ x ∈ l, x.isDictCell = true) :
    comprehend Cell.valueField l = some (l.map Cell.dval) := by
  induction l with
  | nil => rfl
  | cons a l ih =>
      have ha := h a (by simp)
      cases a with
      | cdict i v =>
          have ht := ih (fun x hx => h x (by simp [hx]))
          simp [comprehend, Cell.valueField, Cell.dval, ht]
      | cstr s => simp [Cell.isDictCell] at ha
      | cnum q => simp [Cell.isDictCell] at ha

/-- On a column with a non-dict entry, subscripting by `'value'` raises. -/
lemma comprehend_valueField_mixed (l : List Cell) (h : ∃ x ∈ l, x.isDictCell = false) :
    comprehend Cell.valueField l = none := by
  induction l with
  | nil => simp at h
  | cons a l ih =>
      obtain ⟨x, hx, hxd⟩ := h
      rcases List.mem_cons.mp hx with hax | hxl
      · subst hax
        cases x with
        | cdict i v => simp [Cell.isDictCell] at hxd
        | cstr s => simp [comprehend, Cell.valueField]
        | cnum q => simp [comprehend, Cell.valueField]
      · have ht := ih ⟨x, hxl, hxd⟩
        cases a with
        | cdict i v => simp [comprehend, Cell.valueField, ht]
        | cstr s => simp [comprehend, Cell.valueField]
        | cnum q => simp [comprehend, Cell.valueField]

/-- Looking a key up after the truncation loop yields the original value
truncated. -/
lemma dictLookup_truncateAll (d : DataDict) (n : Nat) (k : String) :
    dictLookup (truncateAll d n) k = (dictLookup d k).map (fun v => v.take n) := by
  induction d with
  | nil => rfl
  | cons kv d ih =>
      by_cases h : kv.1 = k
      · simp [dictLookup, truncateAll, List.find?_cons, h]
      · simpa [dictLookup, truncateAll, List.find?_cons, h] using ih

/-- The fetch loop, fully unrolled: results and log are the per-indicator
success records and log lines, in order, appended to the accumulator. -/
lemma fetch_fold_spec (net : String → FetchResult) (l : List (String × String))
    (acc : List (String × DataFrame)) (log : List String) :
    l.foldl (fetchStep net) (acc, log) =
      (acc ++ l.filterMap (succRecord net), log ++ l.filterMap (logLine net)) := by
  induction l generalizing acc log with
  | nil => simp
  | cons p l ih =>
      simp only [List.foldl_cons, List.filterMap_cons]
      cases hn : net p.2 with
      | reqError e =>
          simp [fetchStep, succRecord, logLine, hn, ih]
      | response body =>
          cases hb : body[1]? with
          | none => simp [fetchStep, succRecord, logLine, hn, hb, ih]
          | some df =>
              by_cases hdf : df.nrows = 0 <;>
                simp [fetchStep, succRecord, logLine, hn, hb, hdf, ih]

end Lemmas

/-- C1: the sample (fallback) data is used exactly when the Fetcher's
result mapping contains two or fewer indicator tables; for more than two,
the fetched mapping itself is processed — never the partial fetched data
in the first case. -/
theorem claim_C1_fallback_threshold (wb : List (String × DataFrame)) :
    (wb.length ≤ 2 → chooseData wb = some create_sample_demographic_data) ∧
    (wb.length > 2 → chooseData wb = processWbData wb) := by
  constructor
  · intro h
    rw [chooseData, if_neg]
    rintro ⟨-, h2⟩
    omega
  · intro h
    rw [chooseData, if_pos]
    exact ⟨by rintro rfl; simp at h, h⟩

/-- Witness for C1 at the empty fetch result. -/
theorem claim_C1_fallback_threshold_witness :
    ([] : List (String × DataFrame)).length ≤ 2 ∧
      chooseData [] = some create_sample_demographic_data :=
  ⟨by decide, (claim_C1_fallback_threshold []).1 (by decide)⟩

/-- C3: on an empty fetch result the pipeline uses the fallback's 8 named
countries; the record set has exactly 8 entries, the average age 0-14
percentage is 18.1125 and the average age 65+ percentage is 16.675. -/
theorem claim_C3_empty_fetch_end_to_end :
    (pipeline []).map (fun ci =>
        (ci.countries, ci.countries.length,
         meanCells ci.fields.age_0_14, meanCells ci.fields.age_65_plus)) =
      some ([Cell.cstr "United States", Cell.cstr "China", Cell.cstr "India",
             Cell.cstr "Germany", Cell.cstr "Japan", Cell.cstr "Brazil",
             Cell.cstr "United Kingdom", Cell.cstr "France"], 8,
            some (18.1125 : ℚ), some (16.675 : ℚ)) := by
  simp [pipeline, chooseData, processWbData, create_sample_demographic_data,
        num_countries, dictLookup, truncateAll, List.find?, buildLabels,
        comprehend, cellLabel, resolveFields, meanCells, cellNum, mean]
  norm_num

/-- C7: the Normalizer's numeric coercion of a non-empty table's raw
`value` column is total: it never raises, preserves the column length,
maps each parseable entry to its parsed number and each unparseable or
missing entry to 0. -/
theorem claim_C7_coercion_total (df : DataFrame) (vs : List RawVal)
    (_hv : df.value = some vs) (_hne : df.nrows ≠ 0) :
    (coerceColumn vs).length = vs.length ∧
    ∀ i : Nat,
      (∀ q, vs[i]? = some (RawVal.num q) →
          (coerceColumn vs)[i]? = some (Cell.cnum q)) ∧
      (∀ s, vs[i]? = some (RawVal.unparseable s) →
          (coerceColumn vs)[i]? = some (Cell.cnum 0)) ∧
      (vs[i]? = some RawVal.missing →
          (coerceColumn vs)[i]? = some (Cell.cnum 0)) := by
  refine ⟨by simp [coerceColumn], fun i => ⟨?_, ?_, ?_⟩⟩
  · intro q hq
    simp [coerceColumn, List.getElem?_map, hq, coerceValue]
  · intro s hs
    simp [coerceColumn, List.getElem?_map, hs, coerceValue]
  · intro hm
    simp [coerceColumn, List.getElem?_map, hm, coerceValue]

/-- Witness for C7 on a three-entry column. -/
theorem claim_C7_coercion_total_witness :
    (coerceColumn [RawVal.num 5, RawVal.unparseable "x", RawVal.missing]).length
      = [RawVal.num 5, RawVal.unparseable "x", RawVal.missing].length :=
  (claim_C7_coercion_total
    ⟨3, none, some [RawVal.num 5, RawVal.unparseable "x", RawVal.missing]⟩
    [RawVal.num 5, RawVal.unparseable "x", RawVal.missing]
    rfl (by decide)).1

/-- C6: a country display name longer than 12 characters is shortened to
its first 12 characters followed by an ellipsis, a shorter one is kept
unchanged; and the shortening feeds only the chart-label list, which is
derived from (and leaves untouched) the record set's countries. -/
theorem claim_C6_label_shortening :
    (∀ s : String,
      (s.length > 12 → shortenLabel s = s.take 12 ++ "...") ∧
      (s.length ≤ 12 → shortenLabel s = s)) ∧
    (∀ wb ci, pipeline wb = some ci →
      buildLabels ci.countries = some ci.countries_short) := by
  constructor
  · intro s
    constructor
    · intro h
      simp [shortenLabel, h]
    · intro h
      rw [shortenLabel, if_neg (by omega)]
  · intro wb ci h
    rw [pipeline] at h
    simp only [Option.bind_eq_some, Option.some.injEq] at h
    obtain ⟨d, hd, n, hn, cs, hcs, labels, hl, h⟩ := h
    subst h
    exact hl

/-- Witness for C6 on a 13-character name. -/
theorem claim_C6_label_shortening_witness :
    ("United States".length > 12) ∧
      shortenLabel "United States" = "United States".take 12 ++ "..." :=
  ⟨by decide, (claim_C6_label_shortening.1 "United States").1 (by decide)⟩

/-- C5: country-identifier resolution on the first available indicator
table is a three-way split: a `country` column of code+display-name dicts
yields the `value` sub-fields (the display names, not the codes); a
column of plain entries is used directly; with no `country` column,
placeholder names `Country_1`, `Country_2`, ... are synthesized, one per
row. -/
theorem claim_C5_country_resolution (df : DataFrame) :
    (∀ c rest, df.country = some (c :: rest) →
        (∀ x ∈ c :: rest, x.isDictCell = true) →
        resolveCountries df =
          some ((c :: rest).map (fun x => Cell.cstr x.dval))) ∧
    (∀ c rest, df.country = some (c :: rest) → c.isDictCell = false →
        resolveCountries df = some (c :: rest)) ∧
    (df.country = none →
        resolveCountries df =
          some ((List.range df.nrows).map
            (fun i => Cell.cstr ("Country_" ++ toString (i + 1))))) := by
  refine ⟨?_, ?_, ?_⟩
  · intro c rest hcol hall
    have hc := hall c (by simp)
    simp only [resolveCountries, hcol, extractCountries, if_pos hc,
               comprehend_valueField_all_dict _ hall]
    simp
  · intro c rest hcol hc
    simp only [resolveCountries, hcol, extractCountries, hc]
    simp
  · intro hnone
    simp only [resolveCountries, hnone]

/-- Witness for C5: a dict column `{"id": "USA", "value": "United States"}`
resolves to the display name, not the code. -/
theorem claim_C5_country_resolution_witness :
    resolveCountries ⟨1, some [Cell.cdict "USA" "United States"], none⟩ =
      some [Cell.cstr "United States"] :=
  (claim_C5_country_resolution ⟨1, some [Cell.cdict "USA" "United States"], none⟩).1
    (Cell.cdict "USA" "United States") [] rfl (by decide)

/-- C9: the dict-versus-string decision for the `country` column inspects
only the first entry: with a dict first entry every entry is subscripted
by `'value'` (an all-dict column yields the display names; a mixed column
with a later non-dict entry raises, i.e. is unsupported); with a non-dict
first entry the whole column is used as-is, whatever its later entries
are. -/
theorem claim_C9_head_only_dispatch :
    (∀ (c : Cell) (rest : List Cell), c.isDictCell = true →
        (∀ x ∈ c :: rest, x.isDictCell = true) →
        extractCountries (c :: rest) =
          some ((c :: rest).map (fun x => Cell.cstr x.dval))) ∧
    (∀ (c : Cell) (rest : List Cell), c.isDictCell = true →
        (∃ x ∈ rest, x.isDictCell = false) →
        extractCountries (c :: rest) = none) ∧
    (∀ (c : Cell) (rest : List Cell), c.isDictCell = false →
        extractCountries (c :: rest) = some (c :: rest)) := by
  refine ⟨?_, ?_, ?_⟩
  · intro c rest hc hall
    rw [extractCountries, if_pos hc, comprehend_valueField_all_dict _ hall]
    simp
  · intro c rest hc hmix
    obtain ⟨x, hx, hxd⟩ := hmix
    rw [extractCountries, if_pos hc,
        comprehend_valueField_mixed _ ⟨x, by simp [hx], hxd⟩]
    rfl
  · intro c rest hc
    rw [extractCountries, if_neg (by simp [hc])]

/-- Witness for C9: a mixed column headed by a dict raises, while the
same tail headed by a string is returned as-is. -/
theorem claim_C9_head_only_dispatch_witness :
    extractCountries [Cell.cdict "US" "United States", Cell.cstr "China"] = none ∧
    extractCountries [Cell.cstr "China", Cell.cdict "US" "United States"] =
      some [Cell.cstr "China", Cell.cdict "US" "United States"] :=
  ⟨claim_C9_head_only_dispatch.2.1 (Cell.cdict "US" "United States")
      [Cell.cstr "China"] (by decide) ⟨Cell.cstr "China", by decide, by decide⟩,
   claim_C9_head_only_dispatch.2.2 (Cell.cstr "China")
      [Cell.cdict "US" "United States"] (by decide)⟩

/-- C2 counterexample: in a data mapping holding `male_population` (value
7) but no `female_population`, the code ignores `male_population`
entirely — `male_pop` is absent too, so the male field becomes the
default 100, not 7 — refuting per-field first-present-key resolution. -/
theorem claim_C2_counterexample_population_coupling :
    dictLookup popCoupleDict "male_population" = some [Cell.cnum 7] ∧
    dictLookup popCoupleDict "male_pop" = none ∧
    (resolveFields popCoupleDict 1).male_data = [Cell.cnum 100] ∧
    ([Cell.cnum 100] : List Cell) ≠ [Cell.cnum 7] := by
  refine ⟨rfl, rfl, rfl, by decide⟩

/-- C2 amended: each age field is resolved by trying its candidate keys
in priority order (`<name>_percent`, then `<name>`), first present key
winning, with fixed defaults 20 / 65 / 15 per entry when neither is
present; the male and female population fields are resolved jointly:
`male_population`/`female_population` are used only when BOTH are
present, and otherwise both fields fall back to `male_pop`/`female_pop`
respectively, defaulting to 100 per entry; in particular a record with
no `male_population`/`male_pop` key yields male values equal to 100. -/
theorem claim_C2_field_aliasing_amended (d : DataDict) (n : Nat) :
    (∀ m f, dictLookup d "male_population" = some m →
        dictLookup d "female_population" = some f →
        (resolveFields d n).male_data = m ∧ (resolveFields d n).female_data = f) ∧
    ((dictLookup d "male_population" = none ∨
      dictLookup d "female_population" = none) →
        (resolveFields d n).male_data =
          ((dictLookup d "male_pop").getD (List.replicate n (Cell.cnum 100))).take n ∧
        (resolveFields d n).female_data =
          ((dictLookup d "female_pop").getD (List.replicate n (Cell.cnum 100))).take n) ∧
    (dictLookup d "male_population" = none → dictLookup d "male_pop" = none →
        (resolveFields d n).male_data = List.replicate n (Cell.cnum 100)) ∧
    (∀ v, dictLookup d "age_0_14_percent" = some v →
        (resolveFields d n).age_0_14 = v.take n) ∧
    (∀ v, dictLookup d "age_0_14_percent" = none →
        dictLookup d "age_0_14" = some v →
        (resolveFields d n).age_0_14 = v.take n) ∧
    (dictLookup d "age_0_14_percent" = none → dictLookup d "age_0_14" = none →
        (resolveFields d n).age_0_14 = List.replicate n (Cell.cnum 20)) ∧
    (∀ v, dictLookup d "age_15_64_percent" = some v →
        (resolveFields d n).age_15_64 = v.take n) ∧
    (∀ v, dictLookup d "age_15_64_percent" = none →
        dictLookup d "age_15_64" = some v →
        (resolveFields d n).age_15_64 = v.take n) ∧
    (dictLookup d "age_15_64_percent" = none → dictLookup d "age_15_64" = none →
        (resolveFields d n).age_15_64 = List.replicate n (Cell.cnum 65)) ∧
    (∀ v, dictLookup d "age_65_plus_percent" = some v →
        (resolveFields d n).age_65_plus = v.take n) ∧
    (∀ v, dictLookup d "age_65_plus_percent" = none →
        dictLookup d "age_65_plus" = some v →
        (resolveFields d n).age_65_plus = v.take n) ∧
    (dictLookup d "age_65_plus_percent" = none →
        dictLookup d "age_65_plus" = none →
        (resolveFields d n).age_65_plus = List.replicate n (Cell.cnum 15)) := by
  refine ⟨?_, ?_, ?_, ?_, ?_, ?_, ?_, ?_, ?_, ?_, ?_, ?_⟩
  · intro m f hm hf
    constructor <;> simp [resolveFields, hm, hf]
  · rintro (hm | hf)
    · constructor <;> simp [resolveFields, hm]
    · cases hm : dictLookup d "male_population" <;>
        constructor <;> simp [resolveFields, hm, hf]
  · intro hm hmp
    simp [resolveFields, hm, hmp, List.take_replicate]
  · intro v hv
    simp [resolveFields, hv]
  · intro v hv1 hv2
    simp [resolveFields, hv1, hv2]
  · intro hv1 hv2
    simp [resolveFields, hv1, hv2, List.take_replicate]
  · intro v hv
    simp [resolveFields, hv]
  · intro v hv1 hv2
    simp [resolveFields, hv1, hv2]
  · intro hv1 hv2
    simp [resolveFields, hv1, hv2, List.take_replicate]
  · intro v hv
    simp [resolveFields, hv]
  · intro v hv1 hv2
    simp [resolveFields, hv1, hv2]
  · intro hv1 hv2
    simp [resolveFields, hv1, hv2, List.take_replicate]

/-- Witness for the amended C2 on the sample data. -/
theorem claim_C2_field_aliasing_amended_witness :
    (resolveFields create_sample_demographic_data 8).male_data =
      [Cell.cnum 163, Cell.cnum 723, Cell.cnum 717, Cell.cnum 41,
       Cell.cnum 61, Cell.cnum 106, Cell.cnum 33, Cell.cnum 33] :=
  ((claim_C2_field_aliasing_amended create_sample_demographic_data 8).1
    [Cell.cnum 163, Cell.cnum 723, Cell.cnum 717, Cell.cnum 41,
     Cell.cnum 61, Cell.cnum 106, Cell.cnum 33, Cell.cnum 33]
    [Cell.cnum 168, Cell.cnum 689, Cell.cnum 663, Cell.cnum 42,
     Cell.cnum 64, Cell.cnum 109, Cell.cnum 34, Cell.cnum 35]
    rfl rfl).1

/-- C4: every list-valued field of the truncated data is the `take` of
the original at `min 8 (country count)` — a front segment of the
original list, so original order is preserved — and its length is at
most 8 and at most the original country count. -/
theorem claim_C4_truncation (d : DataDict) (cs : List Cell)
    (hcs : dictLookup d "countries" = some cs) :
    ∃ d', truncateData d = some d' ∧
      ∀ k v, dictLookup d k = some v →
        dictLookup d' k = some (v.take (min 8 cs.length)) ∧
        (∃ rest, v = v.take (min 8 cs.length) ++ rest) ∧
        (v.take (min 8 cs.length)).length ≤ 8 ∧
        (v.take (min 8 cs.length)).length ≤ cs.length := by
  refine ⟨truncateAll d (min 8 cs.length), ?_, ?_⟩
  · rw [truncateData, num_countries, hcs]
    rfl
  · intro k v hv
    refine ⟨?_, ⟨v.drop (min 8 cs.length), (List.take_append_drop _ _).symm⟩, ?_, ?_⟩
    · rw [dictLookup_truncateAll, hv]
      rfl
    · simp only [List.length_take]
      omega
    · simp only [List.length_take]
      omega

/-- Witness for C4 on the sample data (country count 8). -/
theorem claim_C4_truncation_witness :
    ∃ d', truncateData create_sample_demographic_data = some d' ∧
      ∀ k v, dictLookup create_sample_demographic_data k = some v →
        dictLookup d' k = some (v.take (min 8 8)) ∧
        (∃ rest, v = v.take (min 8 8) ++ rest) ∧
        (v.take (min 8 8)).length ≤ 8 ∧
        (v.take (min 8 8)).length ≤ 8 :=
  claim_C4_truncation create_sample_demographic_data
    [Cell.cstr "United States", Cell.cstr "China", Cell.cstr "India",
     Cell.cstr "Germany", Cell.cstr "Japan", Cell.cstr "Brazil",
     Cell.cstr "United Kingdom", Cell.cstr "France"] rfl

/-- C10: the truncation count `min 8 (country count)` is computed solely
from the countries list; truncation never pads — each field keeps length
`min (min 8 (country count)) (its own length)`, so a field shorter than
the truncation count stays shorter — and concretely a truncated record
set can hold fields of unequal lengths. -/
theorem claim_C10_no_padding (d : DataDict) (cs : List Cell)
    (hcs : dictLookup d "countries" = some cs) :
    num_countries d = some (min 8 cs.length) ∧
    (∀ k v, dictLookup d k = some v →
        dictLookup (truncateAll d (min 8 cs.length)) k =
          some (v.take (min 8 cs.length)) ∧
        (v.take (min 8 cs.length)).length = min (min 8 cs.length) v.length) ∧
    (∃ d', truncateData shortFieldsDict = some d' ∧
        dictLookup d' "male_pop" = some [Cell.cnum 1] ∧
        dictLookup d' "age_0_14" = some [Cell.cnum 2, Cell.cnum 3] ∧
        (1 : Nat) ≠ 2) := by
  refine ⟨?_, ?_, truncateAll shortFieldsDict 3, rfl, rfl, rfl, by decide⟩
  · rw [num_countries, hcs]
    rfl
  · intro k v hv
    constructor
    · rw [dictLookup_truncateAll, hv]
      rfl
    · simp [List.length_take]

/-- Witness for C10 on the sample data. -/
theorem claim_C10_no_padding_witness :
    dictLookup create_sample_demographic_data "countries" =
      some [Cell.cstr "United States", Cell.cstr "China", Cell.cstr "India",
            Cell.cstr "Germany", Cell.cstr "Japan", Cell.cstr "Brazil",
            Cell.cstr "United Kingdom", Cell.cstr "France"] ∧
    num_countries create_sample_demographic_data = some (min 8 8) :=
  ⟨rfl,
   (claim_C10_no_padding create_sample_demographic_data
     [Cell.cstr "United States", Cell.cstr "China", Cell.cstr "India",
      Cell.cstr "Germany", Cell.cstr "Japan", Cell.cstr "Brazil",
      Cell.cstr "United Kingdom", Cell.cstr "France"] rfl).1⟩

/-- C8: the Fetcher tolerates per-indicator failures: the returned
mapping is exactly the per-indicator success records (an indicator is
present iff its request succeeded with a non-empty payload, so one
failure does not disturb the others), every failing indicator leaves a
failure line in the log and is omitted, and when every call fails the
mapping is empty. -/
theorem claim_C8_failure_tolerance (net : String → FetchResult) :
    (fetch_wb_demographic_data net).1 = INDICATORS.filterMap (succRecord net) ∧
    (∀ p ∈ INDICATORS, ∀ e, net p.2 = FetchResult.reqError e →
        ("✗ Error fetching " ++ p.1 ++ ": " ++ e) ∈
          (fetch_wb_demographic_data net).2 ∧
        succRecord net p = none) ∧
    ((∀ p ∈ INDICATORS, ∃ e, net p.2 = FetchResult.reqError e) →
        (fetch_wb_demographic_data net).1 = []) := by
  have hspec := fetch_fold_spec net INDICATORS [] []
  refine ⟨?_, ?_, ?_⟩
  · rw [fetch_wb_demographic_data, hspec]
    simp
  · intro p hp e he
    constructor
    · rw [fetch_wb_demographic_data, hspec]
      simp only [List.nil_append]
      exact List.mem_filterMap.mpr ⟨p, hp, by simp [logLine, he]⟩
    · simp [succRecord, he]
  · intro hall
    rw [fetch_wb_demographic_data, hspec]
    simp only [List.nil_append]
    rw [List.filterMap_eq_nil_iff]
    intro p hp
    obtain ⟨e, he⟩ := hall p hp
    simp [succRecord, he]

/-- Witness for C8 on a network where every request fails. -/
theorem claim_C8_failure_tolerance_witness :
    (fetch_wb_demographic_data netAllFail).1 = [] ∧
    ("✗ Error fetching " ++ "male_pop" ++ ": " ++ "timeout") ∈
      (fetch_wb_demographic_data netAllFail).2 :=
  ⟨(claim_C8_failure_tolerance netAllFail).2.2 (fun _ _ => ⟨"timeout", rfl⟩),
   ((claim_C8_failure_tolerance netAllFail).2.1 ("male_pop", "SP.POP.TOTL.MA.IN")
      (by decide) "timeout" rfl).1⟩

end Task1
